import Mathlib

set_option maxHeartbeats 1000000
set_option maxRecDepth 10000

/-!
Verification development for the ACT repository (file src/ACT.py, function ACT_I).

The embedding works over ℚ. External numeric primitives that the code delegates
to libraries (the standard normal quantile ppf, the standard normal cdf, and the
square root used in the moment-corrected residual formula) are passed as function
parameters, mirroring the spec, which treats them as external collaborators.
IEEE non-finite values (the NaN entries arising from 0/0 when a simulated
replicate has an empty row or column) are modelled by Option ℚ, with none
standing for a non-finite value; none propagates through addition the way NaN
does, and every ordered comparison against none is false, as in IEEE arithmetic.
The multinomial draw is random, so the list of per-replicate residual matrices
is an input of the post-simulation pipeline; everything after the draw is
deterministic and is embedded faithfully.
-/

namespace ACT

/-- An R by C matrix of rationals (observed table, expected frequencies,
observed residuals). -/
abbrev Mat (R C : ℕ) := Fin R → Fin C → ℚ

/-- An R by C matrix of possibly non-finite values; none models IEEE NaN. -/
abbrev OMat (R C : ℕ) := Fin R → Fin C → Option ℚ

/-- Addition on possibly non-finite values: a NaN operand makes the sum NaN,
exactly as in the numpy sum used at src/ACT.py line 131. -/
def oadd : Option ℚ → Option ℚ → Option ℚ
  | some a, some b => some (a + b)
  | _, _ => none

/-- The entries of a matrix, flattened row-major like a numpy array. -/
def matList {R C : ℕ} (s : OMat R C) : List (Option ℚ) :=
  (List.finRange R).flatMap fun i => (List.finRange C).map (s i)

/-- r.sum() of a replicate residual matrix (src/ACT.py line 131): the sum of all
entries, NaN-absorbing. -/
def matSum {R C : ℕ} (s : OMat R C) : Option ℚ :=
  (matList s).foldl oadd (some 0)

/-- abs(v) greater than z for a possibly non-finite v: comparisons against NaN are
false in IEEE arithmetic, matching numpy behaviour for abs(sim) greater than z. -/
def oAbsGT : Option ℚ → ℚ → Bool
  | some q, z => decide (z < |q|)
  | none, _ => false

/-- True in (abs(sim) greater than z) for one replicate (src/ACT.py line 147). -/
def anyExceed {R C : ℕ} (s : OMat R C) (z : ℚ) : Bool :=
  (matList s).any fun v => oAbsGT v z

/-- The any-exceedance rate across replicates: np.mean of the booleans of
anyExceed, i.e. the count of replicates with some cell exceeding z, over the
number of replicates (src/ACT.py line 147). -/
def rate {R C : ℕ} (sims : List (OMat R C)) (z : ℚ) : ℚ :=
  ((sims.countP fun s => anyExceed s z : ℕ) : ℚ) / ((sims.length : ℕ) : ℚ)

/-- type1_cell (src/ACT.py line 153): np.mean over all residual entries of all
kept replicates of the boolean abs(entry) greater than z. -/
def cellRate {R C : ℕ} (sims : List (OMat R C)) (z : ℚ) : ℚ :=
  (((sims.map fun s => (matList s).countP fun v => oAbsGT v z).sum : ℕ) : ℚ) /
    ((sims.length * (R * C) : ℕ) : ℚ)

/-- toKeep (src/ACT.py line 131): the per-replicate validity mask, true when the
sum of the residual matrix is finite. -/
def toKeepOf {R C : ℕ} (sims : List (OMat R C)) : List Bool :=
  sims.map fun r => (matSum r).isSome

/-- The kept replicates (src/ACT.py line 137): the replicates whose mask entry is
true; the list comprehension over indices is the filter by the same predicate. -/
def keptOf {R C : ℕ} (sims : List (OMat R C)) : List (OMat R C) :=
  sims.filter fun r => (matSum r).isSome

/-- total = np.size(sim_residuals) after filtering (src/ACT.py line 138): the
number of residual entries across kept replicates. -/
def totalOf (R C : ℕ) (sims : List (OMat R C)) : ℕ :=
  (keptOf sims).length * (R * C)

/-- The sparsity warning of src/ACT.py line 135: valid is compared to nrep/2
with float division; valid is len(toKeep), embedded as the mask length. -/
def warnsOf {R C : ℕ} (nrep : ℕ) (sims : List (OMat R C)) : List String :=
  if (((toKeepOf sims).length : ℕ) : ℚ) ≤ ((nrep : ℕ) : ℚ) / 2 then
    ["Table seems to be too sparse; consider merging rows or columns"]
  else []

/-- One iteration of the bisection loop (src/ACT.py lines 145 to 151), acting on
the state (zmin, zmax, z_omnibus, type1). The midpoint and its rate are written
once per iteration in the source; they are repeated here, denoting the same
values. -/
def actStep {R C : ℕ} (sims : List (OMat R C)) (α : ℚ) (s : ℚ × ℚ × ℚ × ℚ) :
    ℚ × ℚ × ℚ × ℚ :=
  if α < rate sims ((s.2.1 + s.1) / 2) then
    ((s.2.1 + s.1) / 2, s.2.1, (s.2.1 + s.1) / 2, rate sims ((s.2.1 + s.1) / 2))
  else
    (s.1, (s.2.1 + s.1) / 2, (s.2.1 + s.1) / 2, rate sims ((s.2.1 + s.1) / 2))

/-- The 25-iteration bisection loop (src/ACT.py line 145); z_omnibus and type1
are unassigned before the loop and are initialised with dummies, overwritten by
the first iteration. -/
def actLoop {R C : ℕ} (sims : List (OMat R C)) (α zmin0 zmax0 : ℚ) : ℚ × ℚ × ℚ × ℚ :=
  (actStep sims α)^[25] (zmin0, zmax0, 0, 0)

/-- A calibration-dependent report field: either a computed value or the literal
sentinel string of src/ACT.py lines 189 to 194, namely
Not computed; insufficent valid replicates. -/
inductive CF (α : Type) where
  | val : α → CF α
  | notComputed : CF α

/-- The report dictionary returned by ACT_I (src/ACT.py lines 161 to 195). -/
structure Report (R C : ℕ) where
  Problem : String
  InputTable : Mat R C
  NominalTestSize : ℚ
  NumReplicates : ℕ
  ValidReplicates : ℕ
  ExpectedFrequencies : Mat R C
  Residuals : Mat R C
  Cellwise_CriticalValue : ℚ
  Cellwise_Significant : Fin R → Fin C → Bool
  Cellwise_ExactTestSize : CF ℚ
  Famwise_AlphaStar : CF ℚ
  Famwise_CriticalValue : CF ℚ
  Famwise_Significant : CF (Fin R → Fin C → Bool)
  Famwise_ExactTestSize : CF ℚ
  OmnibusHypothesis : CF String

/-- The report built when total is above 1000 (src/ACT.py lines 144 to 177):
the calibrated branch. -/
def calibReport (R C : ℕ) (observed expected residuals : Mat R C) (α : ℚ)
    (Rtype : String) (nrep : ℕ) (ppf cdf : ℚ → ℚ) (sims : List (OMat R C)) :
    Report R C :=
  let kept := keptOf sims
  let zres := ppf (1 - α / 2)
  let st := actLoop kept α (ppf (1 - α)) 10
  let z := st.2.2.1
  { Problem := "Omnibus test of independence and " ++ Rtype ++ " residual analysis"
    InputTable := observed
    NominalTestSize := α
    NumReplicates := nrep
    ValidReplicates := (toKeepOf sims).length
    ExpectedFrequencies := expected
    Residuals := residuals
    Cellwise_CriticalValue := zres
    Cellwise_Significant := fun i j => decide (zres < |residuals i j|)
    Cellwise_ExactTestSize := CF.val (cellRate kept zres)
    Famwise_AlphaStar := CF.val (2 * cdf (-z))
    Famwise_CriticalValue := CF.val z
    Famwise_Significant := CF.val fun i j => decide (z < |residuals i j|)
    Famwise_ExactTestSize := CF.val st.2.2.2
    OmnibusHypothesis := CF.val
      (if ((List.finRange R).any fun i =>
            (List.finRange C).any fun j => decide (z < |residuals i j|)) then
        "Rejected"
      else "Not rejected") }

/-- The report built when total is at most 1000 (src/ACT.py lines 178 to 195):
calibration-dependent fields carry the sentinel. -/
def sentReport (R C : ℕ) (observed expected residuals : Mat R C) (α : ℚ)
    (Rtype : String) (nrep : ℕ) (ppf : ℚ → ℚ) (sims : List (OMat R C)) :
    Report R C :=
  let zres := ppf (1 - α / 2)
  { Problem := "Omnibus test of independence and " ++ Rtype ++ " residual analysis"
    InputTable := observed
    NominalTestSize := α
    NumReplicates := nrep
    ValidReplicates := (toKeepOf sims).length
    ExpectedFrequencies := expected
    Residuals := residuals
    Cellwise_CriticalValue := zres
    Cellwise_Significant := fun i j => decide (zres < |residuals i j|)
    Cellwise_ExactTestSize := CF.notComputed
    Famwise_AlphaStar := CF.notComputed
    Famwise_CriticalValue := CF.notComputed
    Famwise_Significant := CF.notComputed
    Famwise_ExactTestSize := CF.notComputed
    OmnibusHypothesis := CF.notComputed }

/-- The pipeline of ACT_I after the bootstrap draw (src/ACT.py lines 131 to 196):
mask, valid count, the sparse-table error, the sparsity warning, filtering, the
adequacy threshold, and report assembly. The replicate residual matrices are an
input because the multinomial draw is random. -/
def ACT_post (R C : ℕ) (observed expected residuals : Mat R C) (α : ℚ)
    (Rtype : String) (nrep : ℕ) (ppf cdf : ℚ → ℚ) (sims : List (OMat R C)) :
    Except String (Report R C × List String) :=
  if (toKeepOf sims).length = 0 then
    Except.error "Table is too sparse to produce valid replicates; consider merging rows or columns"
  else if 1000 < totalOf R C sims then
    Except.ok (calibReport R C observed expected residuals α Rtype nrep ppf cdf sims,
      warnsOf nrep sims)
  else
    Except.ok (sentReport R C observed expected residuals α Rtype nrep ppf sims,
      warnsOf nrep sims)

/-! Input validation (src/ACT.py lines 71 to 96). A numpy array is modelled by
its shape and its row-major data, entries Option ℚ with none for NaN; the Python
values accepted for alpha and nrep are modelled by a small sum type recording
the runtime type, since the checks use isinstance. -/

/-- A numpy array: shape and row-major entries; none models NaN. -/
structure NArr where
  shape : List ℕ
  data : List (Option ℚ)

/-- A Python value passed for alpha or nrep: a float, an int, or anything else. -/
inductive PyVal where
  | pfloat : ℚ → PyVal
  | pint : ℤ → PyVal
  | pother : PyVal

/-- A Python exception, as relevant here: TypeError or ValueError. -/
inductive PyErr where
  | typeErr : String → PyErr
  | valueErr : String → PyErr

/-- Python str.lower, for the ASCII strings compared here. -/
def pyLower (s : String) : String := String.mk (s.data.map Char.toLower)

/-- The Rtype check of src/ACT.py line 80: Rtype.lower() in the list adj, mc. -/
def rtypeOk (s : String) : Bool := ["adj", "mc"].contains (pyLower s)

/-- Python int() applied to a float: truncation toward zero. -/
def pyTrunc (q : ℚ) : ℤ := q.num.tdiv (q.den : ℤ)

/-- The alpha check of src/ACT.py line 83: not a float, or outside (0, 0.5]. -/
def alphaBad : PyVal → Bool
  | PyVal.pfloat q => decide (q ≤ 0) || decide (1 / 2 < q)
  | _ => true

/-- The nrep handling of src/ACT.py lines 85 to 88: a float is truncated with
int() and accepted with no further check; a negative int is rejected; the check
nrep less than 0 accepts the int 0. -/
def checkNrep : PyVal → Except PyErr ℤ
  | PyVal.pfloat q => Except.ok (pyTrunc q)
  | PyVal.pint n =>
      if n < 0 then Except.error (PyErr.valueErr "nrep must be a positive integer")
      else Except.ok n
  | PyVal.pother => Except.error (PyErr.valueErr "nrep must be a positive integer")

/-- One cell of the row-major data of a 2-D array with c columns. -/
def cellAt (a : NArr) (c i j : ℕ) : Option ℚ := a.data.getD (i * c + j) none

/-- A column sum of a 2-D array (observed.sum(axis=0)). -/
def colSumA (a : NArr) (r c j : ℕ) : Option ℚ :=
  ((List.range r).map fun i => cellAt a c i j).foldl oadd (some 0)

/-- A row sum of a 2-D array (observed.sum(axis=1)); the row count is passed for
symmetry with colSumA though the sum only ranges over the c columns. -/
def rowSumA (a : NArr) (_r c i : ℕ) : Option ℚ :=
  ((List.range c).map fun j => cellAt a c i j).foldl oadd (some 0)

/-- The validation of ACT_I (src/ACT.py lines 71 to 96), in source order: shape
check (more than 2 dimensions, or fewer than 4 cells), NaN check, empty
row/column check, Rtype check, alpha check, nrep handling. On success it returns
the nrep that the rest of the function uses. For a 1-dimensional array the
membership test 0 in observed.sum(axis=0) runs on a zero-dimensional sum and
raises TypeError, not ValueError; the warnings of lines 91 to 96 are non-fatal
and are not modelled here. -/
def validate (observed : NArr) (alpha : PyVal) (Rtype : String) (nrep : PyVal) :
    Except PyErr ℤ :=
  if 2 < observed.shape.length ∨ observed.shape.prod < 4 then
    Except.error (PyErr.valueErr "The contingency table is not a two-way table")
  else if none ∈ observed.data then
    Except.error (PyErr.valueErr "The contingency table cannot contain missing values")
  else if observed.shape.length = 2 then
    if some 0 ∈ (List.range (observed.shape.getD 1 0)).map
        (colSumA observed (observed.shape.getD 0 0) (observed.shape.getD 1 0)) ∨
       some 0 ∈ (List.range (observed.shape.getD 0 0)).map
        (rowSumA observed (observed.shape.getD 0 0) (observed.shape.getD 1 0)) then
      Except.error (PyErr.valueErr "The table cannot have empty rows or columns")
    else if rtypeOk Rtype = false then
      Except.error (PyErr.valueErr "Invalid type of residuals")
    else if alphaBad alpha = true then
      Except.error (PyErr.valueErr "Invalid alpha (0 < alpha <= 0.5)")
    else checkNrep nrep
  else
    Except.error (PyErr.typeErr "iteration over a 0-d array")

/-! Residual computation (src/ACT.py lines 104 to 110 for the observed table,
lines 123 to 130 for each replicate). The adjusted residuals come from the
external fitter (statsmodels standardized_resids) and are therefore an input;
the moment-corrected residuals are computed by the code itself. -/

/-- The moment-corrected variance constant of src/ACT.py lines 109 and 129:
(ncolumn-1)*(nfil-1)/(ncolumn*nfil), with nfil rows and ncolumn columns. -/
def mcVariance (nfil ncolumn : ℕ) : ℚ :=
  ((ncolumn : ℚ) - 1) * ((nfil : ℚ) - 1) / ((ncolumn : ℚ) * (nfil : ℚ))

/-- The variances array of src/ACT.py lines 108 to 109: np.zeros filled with the
moment-corrected constant, one entry per cell. -/
def obsVariancesMC (R C : ℕ) : Mat R C := fun _ _ => mcVariance R C

/-- The moment-corrected residuals of the observed table (src/ACT.py line 110). -/
def obsResidualsMC (R C : ℕ) (sqrtFn : ℚ → ℚ) (observed expected : Mat R C) :
    Mat R C :=
  fun i j => (observed i j - expected i j) / sqrtFn (expected i j * obsVariancesMC R C i j)

/-- The per-replicate variances array of src/ACT.py line 129, filled with the
same constant. -/
def simVariancesMC (R C : ℕ) : Mat R C := fun _ _ => mcVariance R C

/-- The moment-corrected residuals of one replicate (src/ACT.py line 130). -/
def simResidualsMC (R C : ℕ) (sqrtFn : ℚ → ℚ) (sim simExpected : Mat R C) :
    Mat R C :=
  fun i j => (sim i j - simExpected i j) / sqrtFn (simExpected i j * simVariancesMC R C i j)

/-- The residual selection for the observed table (src/ACT.py line 104): the
comparison is with the exact string ADJ, not case-insensitive. -/
def residualsFor (R C : ℕ) (Rtype : String) (sqrtFn : ℚ → ℚ)
    (observed expected stdResids : Mat R C) : Mat R C :=
  if Rtype = "ADJ" then stdResids else obsResidualsMC R C sqrtFn observed expected

/-- The residual selection for one replicate (src/ACT.py line 123): the same
exact comparison with ADJ. -/
def simResidualsFor (R C : ℕ) (Rtype : String) (sqrtFn : ℚ → ℚ)
    (sim simExpected simStdResids : Mat R C) : Mat R C :=
  if Rtype = "ADJ" then simStdResids else simResidualsMC R C sqrtFn sim simExpected

/-- Modelled from the spec: the moment-corrected residual formula as section 4.2
states it, residual = (observed - expected) / sqrt(expected * variance) with
variance = (C-1)(R-1)/(C*R) the same constant for every cell of an R by C
table. Used to compare the code definitions against the spec wording. -/
def mcResidualSpec (Rn Cn : ℕ) (sqrtFn : ℚ → ℚ) (o e : ℚ) : ℚ :=
  (o - e) / sqrtFn (e * (((Cn : ℚ) - 1) * ((Rn : ℚ) - 1) / ((Cn : ℚ) * (Rn : ℚ))))

/-! Concrete inputs used in counterexamples, code-bug evaluations and witnesses. -/

/-- A 2 by 2 replicate residual matrix with one NaN entry, as produced by a
degenerate replicate. -/
def nanMat : OMat 2 2 := fun i j => if i = 0 ∧ j = 0 then none else some 0

/-- An all-zero, all-finite replicate residual matrix. -/
def zeroOMat (R C : ℕ) : OMat R C := fun _ _ => some 0

/-- A replicate residual matrix whose entries all have absolute value 20,
exceeding the bisection upper bracket 10. -/
def bigOMat : OMat 2 2 := fun _ _ => some 20

/-- A balanced observed 2 by 2 table. -/
def obsM : Mat 2 2 := fun _ _ => 5

/-- Its expected frequencies under independence. -/
def expM : Mat 2 2 := fun _ _ => 5

/-- Its residuals, all zero. -/
def resM : Mat 2 2 := fun _ _ => 0

/-- A dummy external quantile/cdf, used where its values are irrelevant. -/
def ppf0 : ℚ → ℚ := fun _ => 0

/-- The standard normal quantile, to double precision, at the two points where
ACT_I evaluates it for alpha = 1/20: ppf(0.95) and ppf(0.975). -/
def ppfN : ℚ → ℚ := fun q =>
  if q = 19 / 20 then 16448536269514722 / 10000000000000000
  else if q = 39 / 40 then 1959963984540054 / 1000000000000000
  else 0

/-- 250 valid 2 by 2 replicates: exactly 1000 residual entries. -/
def sims3 : List (OMat 2 2) := List.replicate 250 (zeroOMat 2 2)

/-- 300 valid all-zero 2 by 2 replicates: 1200 residual entries. -/
def sims5 : List (OMat 2 2) := List.replicate 300 (zeroOMat 2 2)

/-- 251 valid 2 by 2 replicates whose residuals all exceed 10. -/
def sims6 : List (OMat 2 2) := List.replicate 251 bigOMat

/-- The observed table [[5,5],[5,5]] as a numpy array. -/
def obs4 : NArr := ⟨[2, 2], [some 5, some 5, some 5, some 5]⟩

/-! Helper lemmas. -/

theorem foldl_oadd_none (l : List (Option ℚ)) : l.foldl oadd none = none := by
  induction l with
  | nil => rfl
  | cons x xs ih => cases x <;> simpa [oadd] using ih

theorem foldl_oadd_isSome (l : List (Option ℚ)) :
    ∀ a : ℚ, (l.foldl oadd (some a)).isSome = l.all Option.isSome := by
  induction l with
  | nil => intro a; rfl
  | cons x xs ih =>
    intro a
    cases x with
    | none => simp [oadd, foldl_oadd_none]
    | some b => simp [oadd, ih (a + b)]

/-- The validity mask is true exactly when every residual entry is finite: the
finiteness of the numpy sum used at src/ACT.py line 131 is equivalent to the
entrywise finiteness the spec describes. -/
theorem matSum_isSome_iff {R C : ℕ} (s : OMat R C) :
    (matSum s).isSome = true ↔ ∀ i j, (s i j).isSome = true := by
  unfold matSum
  rw [foldl_oadd_isSome]
  rw [List.all_eq_true]
  constructor
  · intro h i j
    exact h (s i j) (by
      unfold matList
      rw [List.mem_flatMap]
      exact ⟨i, List.mem_finRange i, List.mem_map_of_mem _ (List.mem_finRange j)⟩)
  · intro h v hv
    unfold matList at hv
    rw [List.mem_flatMap] at hv
    obtain ⟨i, _, hv⟩ := hv
    rw [List.mem_map] at hv
    obtain ⟨j, _, rfl⟩ := hv
    exact h i j

theorem countP_replicate {α : Type} (p : α → Bool) (n : ℕ) (a : α) :
    (List.replicate n a).countP p = if p a then n else 0 := by
  induction n with
  | zero => simp
  | succ k ih =>
    by_cases h : p a <;> simp [List.replicate_succ, List.countP_cons, h, ih]

theorem filter_replicate {α : Type} (p : α → Bool) (n : ℕ) (a : α) :
    (List.replicate n a).filter p = if p a then List.replicate n a else [] := by
  induction n with
  | zero => simp
  | succ k ih =>
    by_cases h : p a <;> simp [List.replicate_succ, List.filter_cons, h, ih]

theorem keptOf_replicate {R C : ℕ} (n : ℕ) (m : OMat R C)
    (h : (matSum m).isSome = true) :
    keptOf (List.replicate n m) = List.replicate n m := by
  unfold keptOf
  rw [filter_replicate]
  simp [h]

theorem rate_replicate {R C : ℕ} (n : ℕ) (m : OMat R C) (z : ℚ) :
    rate (List.replicate n m) z =
      ((if anyExceed m z then n else 0 : ℕ) : ℚ) / ((n : ℕ) : ℚ) := by
  unfold rate
  rw [countP_replicate, List.length_replicate]

theorem oAbsGT_some_false {q z : ℚ} (h : ¬ z < |q|) : oAbsGT (some q) z = false := by
  simp [oAbsGT, h]

theorem oAbsGT_some_true {q z : ℚ} (h : z < |q|) : oAbsGT (some q) z = true := by
  simp [oAbsGT, h]

theorem anyExceed_zeroOMat {z : ℚ} (h : 0 ≤ z) : anyExceed (zeroOMat 2 2) z = false := by
  have hl : matList (zeroOMat 2 2) = [some 0, some 0, some 0, some 0] := rfl
  unfold anyExceed
  rw [hl]
  have h0 : oAbsGT (some (0 : ℚ)) z = false :=
    oAbsGT_some_false (by rw [abs_zero]; exact not_lt.mpr h)
  simp [h0]

theorem anyExceed_bigOMat {z : ℚ} (h : z < 20) : anyExceed bigOMat z = true := by
  have hl : matList bigOMat = [some 20, some 20, some 20, some 20] := rfl
  unfold anyExceed
  rw [hl]
  have h0 : oAbsGT (some (20 : ℚ)) z = true :=
    oAbsGT_some_true (by rw [abs_of_pos (by norm_num)]; exact h)
  simp [h0]

theorem rate_sims5 {z : ℚ} (h : 0 ≤ z) : rate sims5 z = 0 := by
  unfold sims5
  rw [rate_replicate, anyExceed_zeroOMat h]
  norm_num

theorem rate_sims6 {z : ℚ} (h : z < 20) : rate sims6 z = 1 := by
  unfold sims6
  rw [rate_replicate, anyExceed_bigOMat h]
  norm_num

theorem anyExceed_mono {R C : ℕ} (s : OMat R C) {z w : ℚ} (h : z ≤ w)
    (hw : anyExceed s w = true) : anyExceed s z = true := by
  unfold anyExceed at hw ⊢
  rw [List.any_eq_true] at hw ⊢
  obtain ⟨v, hv, hgt⟩ := hw
  refine ⟨v, hv, ?_⟩
  cases v with
  | none => simp [oAbsGT] at hgt
  | some q =>
    simp only [oAbsGT, decide_eq_true_eq] at hgt ⊢
    linarith

theorem rate_antitone {R C : ℕ} (sims : List (OMat R C)) {z w : ℚ} (h : z ≤ w) :
    rate sims w ≤ rate sims z := by
  unfold rate
  apply div_le_div_of_nonneg_right _ (by positivity)
  exact_mod_cast List.countP_mono_left fun s _ hw => anyExceed_mono s h hw

/-! The bisection loop: closed forms when the rate never, or always, exceeds
alpha on the bracket, and the general invariant. -/

theorem actStep_iterate_low {R C : ℕ} (sims : List (OMat R C)) (α l0 u0 : ℚ)
    (hle : l0 ≤ u0) (h : ∀ z : ℚ, l0 ≤ z → ¬ α < rate sims z) :
    ∀ (n : ℕ) (a b : ℚ), (actStep sims α)^[n + 1] (l0, u0, a, b) =
      (l0, l0 + (u0 - l0) / 2 ^ (n + 1), l0 + (u0 - l0) / 2 ^ (n + 1),
        rate sims (l0 + (u0 - l0) / 2 ^ (n + 1))) := by
  have hg : (0 : ℚ) ≤ u0 - l0 := by linarith
  intro n
  induction n with
  | zero =>
    intro a b
    rw [Function.iterate_succ_apply', Function.iterate_zero_apply]
    unfold actStep
    simp only
    rw [if_neg (h _ (by linarith))]
    have hz : (u0 + l0) / 2 = l0 + (u0 - l0) / 2 ^ (0 + 1) := by ring
    rw [hz]
  | succ k ih =>
    intro a b
    rw [Function.iterate_succ_apply', ih a b]
    unfold actStep
    simp only
    have hz : ((l0 + (u0 - l0) / 2 ^ (k + 1)) + l0) / 2 =
        l0 + (u0 - l0) / 2 ^ (k + 1 + 1) := by ring
    have hzge : l0 ≤ (l0 + (u0 - l0) / 2 ^ (k + 1) + l0) / 2 := by
      have : (0 : ℚ) ≤ (u0 - l0) / 2 ^ (k + 1) := by positivity
      linarith
    rw [if_neg (h _ hzge), hz]

theorem actStep_iterate_high {R C : ℕ} (sims : List (OMat R C)) (α l0 u0 : ℚ)
    (hle : l0 ≤ u0) (h : ∀ z : ℚ, z ≤ u0 → α < rate sims z) :
    ∀ (n : ℕ) (a b : ℚ), (actStep sims α)^[n + 1] (l0, u0, a, b) =
      (u0 - (u0 - l0) / 2 ^ (n + 1), u0, u0 - (u0 - l0) / 2 ^ (n + 1),
        rate sims (u0 - (u0 - l0) / 2 ^ (n + 1))) := by
  have hg : (0 : ℚ) ≤ u0 - l0 := by linarith
  intro n
  induction n with
  | zero =>
    intro a b
    rw [Function.iterate_succ_apply', Function.iterate_zero_apply]
    unfold actStep
    simp only
    rw [if_pos (h _ (by linarith))]
    have hz : (u0 + l0) / 2 = u0 - (u0 - l0) / 2 ^ (0 + 1) := by ring
    rw [hz]
  | succ k ih =>
    intro a b
    rw [Function.iterate_succ_apply', ih a b]
    unfold actStep
    simp only
    have hz : (u0 + (u0 - (u0 - l0) / 2 ^ (k + 1))) / 2 =
        u0 - (u0 - l0) / 2 ^ (k + 1 + 1) := by ring
    have hzle : (u0 + (u0 - (u0 - l0) / 2 ^ (k + 1))) / 2 ≤ u0 := by
      have : (0 : ℚ) ≤ (u0 - l0) / 2 ^ (k + 1) := by positivity
      linarith
    rw [if_pos (h _ hzle), hz]

theorem actStep_iterate_inv {R C : ℕ} (sims : List (OMat R C)) (α l0 u0 : ℚ)
    (hle : l0 ≤ u0) :
    ∀ (n : ℕ) (a b : ℚ), ∃ l u z t,
      (actStep sims α)^[n + 1] (l0, u0, a, b) = (l, u, z, t) ∧
      l0 ≤ l ∧ u ≤ u0 ∧ l ≤ u ∧ (z = l ∨ z = u) ∧ t = rate sims z ∧
      u - l = (u0 - l0) / 2 ^ (n + 1) ∧ (rate sims u0 ≤ α → rate sims u ≤ α) := by
  intro n
  induction n with
  | zero =>
    intro a b
    rw [Function.iterate_succ_apply', Function.iterate_zero_apply]
    unfold actStep
    simp only
    by_cases hc : α < rate sims ((u0 + l0) / 2)
    · rw [if_pos hc]
      exact ⟨_, _, _, _, rfl, by linarith, le_refl _, by linarith, Or.inl rfl, rfl,
        by ring, fun hb => hb⟩
    · rw [if_neg hc]
      exact ⟨_, _, _, _, rfl, le_refl _, by linarith, by linarith, Or.inr rfl, rfl,
        by ring, fun _ => le_of_not_lt hc⟩
  | succ k ih =>
    intro a b
    obtain ⟨l, u, z, t, heq, h1, h2, h3, h4, h5, h6, h7⟩ := ih a b
    rw [Function.iterate_succ_apply', heq]
    unfold actStep
    simp only
    by_cases hc : α < rate sims ((u + l) / 2)
    · rw [if_pos hc]
      refine ⟨_, _, _, _, rfl, by linarith, h2, by linarith, Or.inl rfl, rfl, ?_, h7⟩
      have hv : u - (u + l) / 2 = (u - l) / 2 := by ring
      rw [hv, h6]
      ring
    · rw [if_neg hc]
      refine ⟨_, _, _, _, rfl, h1, by linarith, by linarith, Or.inr rfl, rfl, ?_,
        fun _ => le_of_not_lt hc⟩
      have hv : (u + l) / 2 - l = (u - l) / 2 := by ring
      rw [hv, h6]
      ring

/-! Unfolding lemmas for the pipeline. -/

theorem ACT_post_calib (R C : ℕ) (observed expected residuals : Mat R C) (α : ℚ)
    (Rtype : String) (nrep : ℕ) (ppf cdf : ℚ → ℚ) (sims : List (OMat R C))
    (hcal : 1000 < totalOf R C sims) :
    ACT_post R C observed expected residuals α Rtype nrep ppf cdf sims =
      Except.ok (calibReport R C observed expected residuals α Rtype nrep ppf cdf sims,
        warnsOf nrep sims) := by
  have hne : ¬ (toKeepOf sims).length = 0 := by
    intro h0
    unfold toKeepOf at h0
    rw [List.length_map] at h0
    rw [List.length_eq_zero.mp h0] at hcal
    simp [totalOf, keptOf] at hcal
  unfold ACT_post
  rw [if_neg hne, if_pos hcal]

theorem ACT_post_sent (R C : ℕ) (observed expected residuals : Mat R C) (α : ℚ)
    (Rtype : String) (nrep : ℕ) (ppf cdf : ℚ → ℚ) (sims : List (OMat R C))
    (hvn : ¬ (toKeepOf sims).length = 0) (hno : ¬ 1000 < totalOf R C sims) :
    ACT_post R C observed expected residuals α Rtype nrep ppf cdf sims =
      Except.ok (sentReport R C observed expected residuals α Rtype nrep ppf sims,
        warnsOf nrep sims) := by
  unfold ACT_post
  rw [if_neg hvn, if_neg hno]

/-! Field projections of the two reports. -/

theorem calibReport_CellCrit (R C : ℕ) (observed expected residuals : Mat R C)
    (α : ℚ) (Rtype : String) (nrep : ℕ) (ppf cdf : ℚ → ℚ) (sims : List (OMat R C)) :
    (calibReport R C observed expected residuals α Rtype nrep ppf cdf sims).Cellwise_CriticalValue
      = ppf (1 - α / 2) := rfl

theorem calibReport_CellSize (R C : ℕ) (observed expected residuals : Mat R C)
    (α : ℚ) (Rtype : String) (nrep : ℕ) (ppf cdf : ℚ → ℚ) (sims : List (OMat R C)) :
    (calibReport R C observed expected residuals α Rtype nrep ppf cdf sims).Cellwise_ExactTestSize
      = CF.val (cellRate (keptOf sims) (ppf (1 - α / 2))) := rfl

theorem calibReport_FamCrit (R C : ℕ) (observed expected residuals : Mat R C)
    (α : ℚ) (Rtype : String) (nrep : ℕ) (ppf cdf : ℚ → ℚ) (sims : List (OMat R C)) :
    (calibReport R C observed expected residuals α Rtype nrep ppf cdf sims).Famwise_CriticalValue
      = CF.val ((actLoop (keptOf sims) α (ppf (1 - α)) 10).2.2.1) := rfl

theorem calibReport_FamSize (R C : ℕ) (observed expected residuals : Mat R C)
    (α : ℚ) (Rtype : String) (nrep : ℕ) (ppf cdf : ℚ → ℚ) (sims : List (OMat R C)) :
    (calibReport R C observed expected residuals α Rtype nrep ppf cdf sims).Famwise_ExactTestSize
      = CF.val ((actLoop (keptOf sims) α (ppf (1 - α)) 10).2.2.2) := rfl

/-! Evaluation lemmas for the concrete inputs. -/

theorem matSum_zero_isSome : (matSum (zeroOMat 2 2)).isSome = true := rfl

theorem matSum_big_isSome : (matSum bigOMat).isSome = true := rfl

theorem totalOf_sims3 : totalOf 2 2 sims3 = 1000 := by
  unfold totalOf sims3
  rw [keptOf_replicate _ _ matSum_zero_isSome, List.length_replicate]

theorem totalOf_sims5 : totalOf 2 2 sims5 = 1200 := by
  unfold totalOf sims5
  rw [keptOf_replicate _ _ matSum_zero_isSome, List.length_replicate]

theorem totalOf_sims6 : totalOf 2 2 sims6 = 1004 := by
  unfold totalOf sims6
  rw [keptOf_replicate _ _ matSum_big_isSome, List.length_replicate]

theorem keptOf_sims5 : keptOf sims5 = sims5 := by
  unfold sims5
  exact keptOf_replicate _ _ matSum_zero_isSome

theorem keptOf_sims6 : keptOf sims6 = sims6 := by
  unfold sims6
  exact keptOf_replicate _ _ matSum_big_isSome

theorem ppfN_at_095 : ppfN (1 - 1 / 20) = 16448536269514722 / 10000000000000000 := by
  simp only [ppfN]
  rw [if_pos (by norm_num)]

theorem ppfN_at_0975 : ppfN (1 - (1 / 20) / 2) = 1959963984540054 / 1000000000000000 := by
  simp only [ppfN]
  rw [if_neg (by norm_num), if_pos (by norm_num)]

theorem alphaBad_small : alphaBad (PyVal.pfloat (1 / 20)) = false := by
  simp only [alphaBad]
  rw [decide_eq_false (by norm_num : ¬ (1 / 20 : ℚ) ≤ 0),
    decide_eq_false (by norm_num : ¬ (1 / 2 : ℚ) < 1 / 20)]
  rfl

theorem obs4_margins :
    ¬ (some 0 ∈ (List.range (obs4.shape.getD 1 0)).map
        (colSumA obs4 (obs4.shape.getD 0 0) (obs4.shape.getD 1 0)) ∨
       some 0 ∈ (List.range (obs4.shape.getD 0 0)).map
        (rowSumA obs4 (obs4.shape.getD 0 0) (obs4.shape.getD 1 0))) := by
  have hcs : (List.range (obs4.shape.getD 1 0)).map
      (colSumA obs4 (obs4.shape.getD 0 0) (obs4.shape.getD 1 0)) =
      [some ((0 : ℚ) + 5 + 5), some ((0 : ℚ) + 5 + 5)] := rfl
  have hrs : (List.range (obs4.shape.getD 0 0)).map
      (rowSumA obs4 (obs4.shape.getD 0 0) (obs4.shape.getD 1 0)) =
      [some ((0 : ℚ) + 5 + 5), some ((0 : ℚ) + 5 + 5)] := rfl
  rw [hcs, hrs]
  intro hmem
  rcases hmem with h | h <;>
  · simp only [List.mem_cons, List.not_mem_nil, or_false, Option.some.injEq] at h
    rcases h with h | h <;> norm_num at h

theorem validate_obs4_ok (alpha : PyVal) (Rtype : String) (nrep : PyVal)
    (hR : rtypeOk Rtype = true) (hA : alphaBad alpha = false) :
    validate obs4 alpha Rtype nrep = checkNrep nrep := by
  unfold validate
  rw [if_neg (by decide : ¬ (2 < obs4.shape.length ∨ obs4.shape.prod < 4))]
  rw [if_neg (by decide : ¬ (none ∈ obs4.data))]
  rw [if_pos (by decide : obs4.shape.length = 2)]
  rw [if_neg obs4_margins]
  rw [if_neg (by simp [hR] : ¬ (rtypeOk Rtype = false))]
  rw [if_neg (by simp [hA] : ¬ (alphaBad alpha = true))]

/-! The claims. -/

/-- C1: the claim states that ValidReplicates equals the count of true entries
of the validity mask (the replicates whose residual matrices are entirely
finite), at most nrep. The code sets valid = len(toKeep), the mask LENGTH,
which is always nrep: with two replicates of which one contains NaN, the mask
has one true entry but the report carries 2. The first conjunct records that a
mask entry is true exactly when every entry of the matrix is finite; the rest
evaluates the code at the failing input. -/
theorem c1_valid_replicates_bug :
    (∀ r : OMat 2 2, (matSum r).isSome = true ↔ ∀ i j, (r i j).isSome = true) ∧
    (matSum nanMat).isSome = false ∧
    (toKeepOf [nanMat, zeroOMat 2 2]).count true = 1 ∧
    ∃ rep w, ACT_post 2 2 obsM expM resM (1 / 20) "ADJ" 2 ppf0 ppf0
        [nanMat, zeroOMat 2 2] = Except.ok (rep, w) ∧ rep.ValidReplicates = 2 := by
  refine ⟨fun r => matSum_isSome_iff r, rfl, rfl, ?_⟩
  exact ⟨_, _, ACT_post_sent 2 2 obsM expM resM (1 / 20) "ADJ" 2 ppf0 ppf0
    [nanMat, zeroOMat 2 2] (by decide) (by decide), rfl⟩

/-- C2: the claim states that zero valid replicates abort with
InsufficientDataError after bootstrap generation. But valid = len(toKeep) = nrep,
so with nrep = 1 and the single replicate non-finite the zero-valid branch is
unreachable: the mask has no true entry, yet the code returns a sentinel report,
raises nothing, and does not even emit the sparsity warning (the warning list is
empty because valid equals nrep). -/
theorem c2_zero_valid_no_error :
    (toKeepOf (R := 2) (C := 2) [nanMat]).count true = 0 ∧
    ∃ rep w, ACT_post 2 2 obsM expM resM (1 / 20) "ADJ" 1 ppf0 ppf0 [nanMat] =
        Except.ok (rep, w) ∧ w = [] ∧ rep.ValidReplicates = 1 := by
  refine ⟨rfl, _, _, ACT_post_sent 2 2 obsM expM resM (1 / 20) "ADJ" 1 ppf0 ppf0
    [nanMat] (by decide) (by decide), ?_, rfl⟩
  have hl : (toKeepOf (R := 2) (C := 2) [nanMat]).length = 1 := rfl
  unfold warnsOf
  rw [hl, if_neg (by norm_num)]

/-- C3 (amended): the calibration-dependent fields carry the sentinel exactly
when the total number of residual entries across valid replicates is AT MOST
1000 (the code tests total strictly greater than 1000, so a total of exactly
1000 also degrades, unlike the frozen claim, which says below 1000); whenever at
least one replicate mask entry exists no exception is raised, and
ExpectedFrequencies and Residuals are populated with the numeric inputs in both
branches. -/
theorem c3_sentinel_iff_le_1000 (R C : ℕ) (observed expected residuals : Mat R C)
    (α : ℚ) (Rtype : String) (nrep : ℕ) (ppf cdf : ℚ → ℚ) (sims : List (OMat R C))
    (hne : ¬ (toKeepOf sims).length = 0) :
    ∃ rep w, ACT_post R C observed expected residuals α Rtype nrep ppf cdf sims =
        Except.ok (rep, w) ∧
      rep.ExpectedFrequencies = expected ∧ rep.Residuals = residuals ∧
      ((rep.Cellwise_ExactTestSize = CF.notComputed ∧
        rep.Famwise_AlphaStar = CF.notComputed ∧
        rep.Famwise_CriticalValue = CF.notComputed ∧
        rep.Famwise_Significant = CF.notComputed ∧
        rep.Famwise_ExactTestSize = CF.notComputed ∧
        rep.OmnibusHypothesis = CF.notComputed) ↔ totalOf R C sims ≤ 1000) := by
  by_cases hcal : 1000 < totalOf R C sims
  · refine ⟨_, _, ACT_post_calib R C observed expected residuals α Rtype nrep
      ppf cdf sims hcal, rfl, rfl, ?_⟩
    constructor
    · rintro ⟨h1, -, -, -, -, -⟩
      rw [calibReport_CellSize] at h1
      exact CF.noConfusion h1
    · intro hle
      exact absurd hcal (not_lt.mpr hle)
  · refine ⟨_, _, ACT_post_sent R C observed expected residuals α Rtype nrep
      ppf cdf sims hne hcal, rfl, rfl, ?_⟩
    constructor
    · intro _
      exact not_lt.mp hcal
    · intro _
      exact ⟨rfl, rfl, rfl, rfl, rfl, rfl⟩

/-- Witness for C3: 250 valid replicates of a 2 by 2 table (1000 entries): the
hypothesis holds and the sentinel branch is taken, with numeric
ExpectedFrequencies and Residuals. -/
theorem c3_sentinel_iff_le_1000_witness :
    (¬ (toKeepOf sims3).length = 0) ∧
    ∃ rep w, ACT_post 2 2 obsM expM resM (1 / 20) "ADJ" 250 ppf0 ppf0 sims3 =
        Except.ok (rep, w) ∧
      rep.ExpectedFrequencies = expM ∧ rep.Residuals = resM ∧
      ((rep.Cellwise_ExactTestSize = CF.notComputed ∧
        rep.Famwise_AlphaStar = CF.notComputed ∧
        rep.Famwise_CriticalValue = CF.notComputed ∧
        rep.Famwise_Significant = CF.notComputed ∧
        rep.Famwise_ExactTestSize = CF.notComputed ∧
        rep.OmnibusHypothesis = CF.notComputed) ↔ totalOf 2 2 sims3 ≤ 1000) := by
  have hne : ¬ (toKeepOf sims3).length = 0 := by
    unfold toKeepOf sims3
    rw [List.length_map, List.length_replicate]
    norm_num
  exact ⟨hne, c3_sentinel_iff_le_1000 2 2 obsM expM resM (1 / 20) "ADJ" 250
    ppf0 ppf0 sims3 hne⟩

/-- C3 counterexample: with 250 valid 2 by 2 replicates the total is exactly
1000, which is NOT below 1000, yet the code takes the sentinel branch: the
frozen claim (sentinel exactly when total is below 1000) fails at total = 1000. -/
theorem c3_counterexample :
    totalOf 2 2 sims3 = 1000 ∧ ¬ totalOf 2 2 sims3 < 1000 ∧
    ∃ rep w, ACT_post 2 2 obsM expM resM (1 / 20) "ADJ" 250 ppf0 ppf0 sims3 =
        Except.ok (rep, w) ∧ rep.Famwise_CriticalValue = CF.notComputed ∧
      rep.Cellwise_ExactTestSize = CF.notComputed := by
  have hne : ¬ (toKeepOf sims3).length = 0 := by
    unfold toKeepOf sims3
    rw [List.length_map, List.length_replicate]
    norm_num
  refine ⟨totalOf_sims3, by rw [totalOf_sims3]; norm_num, _, _,
    ACT_post_sent 2 2 obsM expM resM (1 / 20) "ADJ" 250 ppf0 ppf0 sims3 hne
      (by rw [totalOf_sims3]; norm_num), rfl, rfl⟩

/-- C4: the claim states that InvalidInputError is raised, before any
simulation, exactly when a precondition fails, including replicate_count not a
positive integer. But the check is nrep less than 0, so nrep = 0 (not positive,
and the docstring says nrep must be greater than 0) passes validation; the run
then generates zero replicates and fails with the sparse-table error AFTER the
bootstrap, not with a validation error before it. -/
theorem c4_validation_accepts_zero_nrep :
    validate obs4 (PyVal.pfloat (1 / 20)) "ADJ" (PyVal.pint 0) = Except.ok 0 ∧
    ACT_post 2 2 obsM expM resM (1 / 20) "ADJ" 0 ppf0 ppf0 [] =
      Except.error "Table is too sparse to produce valid replicates; consider merging rows or columns" := by
  constructor
  · rw [validate_obs4_ok _ _ _ (by decide) alphaBad_small]
    rfl
  · rfl

/-- C5 (amended): Famwise_CriticalValue is at least the ONE-sided standard
normal quantile ppf(1-alpha), the initial lower bound of the bisection,
whenever that bound does not exceed the upper bracket 10. The frozen claim
compares against the two-sided quantile ppf(1-alpha/2) instead, and is refuted
by c5_counterexample. -/
theorem c5_famwise_ge_lower_bound (R C : ℕ) (observed expected residuals : Mat R C)
    (α : ℚ) (Rtype : String) (nrep : ℕ) (ppf cdf : ℚ → ℚ) (sims : List (OMat R C))
    (hcal : 1000 < totalOf R C sims) (h10 : ppf (1 - α) ≤ 10) :
    ∃ rep w z, ACT_post R C observed expected residuals α Rtype nrep ppf cdf sims =
        Except.ok (rep, w) ∧
      rep.Famwise_CriticalValue = CF.val z ∧ ppf (1 - α) ≤ z := by
  refine ⟨_, _, (actLoop (keptOf sims) α (ppf (1 - α)) 10).2.2.1,
    ACT_post_calib R C observed expected residuals α Rtype nrep ppf cdf sims hcal,
    calibReport_FamCrit R C observed expected residuals α Rtype nrep ppf cdf sims, ?_⟩
  obtain ⟨l, u, z, t, heq, h1, h2, h3, h4, h5, h6, h7⟩ :=
    actStep_iterate_inv (keptOf sims) α (ppf (1 - α)) 10 h10 24 0 0
  unfold actLoop
  rw [show (25 : ℕ) = 24 + 1 from rfl, heq]
  show ppf (1 - α) ≤ z
  rcases h4 with rfl | rfl
  · exact h1
  · linarith

/-- Witness for C5 (amended): 300 valid all-zero replicates with the double
precision quantile values at alpha = 1/20. -/
theorem c5_famwise_ge_lower_bound_witness :
    (1000 < totalOf 2 2 sims5) ∧ (ppfN (1 - 1 / 20) ≤ 10) ∧
    ∃ rep w z, ACT_post 2 2 obsM expM resM (1 / 20) "ADJ" 300 ppfN ppf0 sims5 =
        Except.ok (rep, w) ∧
      rep.Famwise_CriticalValue = CF.val z ∧ ppfN (1 - 1 / 20) ≤ z := by
  have h1 : 1000 < totalOf 2 2 sims5 := by rw [totalOf_sims5]; norm_num
  have h2 : ppfN (1 - 1 / 20) ≤ 10 := by rw [ppfN_at_095]; norm_num
  exact ⟨h1, h2, c5_famwise_ge_lower_bound 2 2 obsM expM resM (1 / 20) "ADJ" 300
    ppfN ppf0 sims5 h1 h2⟩

/-- C5 counterexample: with replicates whose residuals are all zero, the
bisection collapses onto its lower bracket ppf(1-alpha) (one-sided), and the
reported Famwise_CriticalValue, about 1.6448539, is strictly below the
two-sided quantile ppf(1-alpha/2), about 1.9599640, which is also the reported
Cellwise_CriticalValue: the frozen claim fails. -/
theorem c5_counterexample :
    ∃ rep w z, ACT_post 2 2 obsM expM resM (1 / 20) "ADJ" 300 ppfN ppf0 sims5 =
        Except.ok (rep, w) ∧
      rep.Famwise_CriticalValue = CF.val z ∧
      rep.Cellwise_CriticalValue = 1959963984540054 / 1000000000000000 ∧
      z < 1959963984540054 / 1000000000000000 := by
  have hcal : 1000 < totalOf 2 2 sims5 := by rw [totalOf_sims5]; norm_num
  have hrate : ∀ z : ℚ, (16448536269514722 : ℚ) / 10000000000000000 ≤ z →
      ¬ (1 / 20 : ℚ) < rate sims5 z := by
    intro z hz
    have h0 : (0 : ℚ) ≤ z := le_trans (by norm_num) hz
    rw [rate_sims5 h0]
    norm_num
  have hlow := actStep_iterate_low sims5 (1 / 20)
    (16448536269514722 / 10000000000000000) 10 (by norm_num) hrate 24 0 0
  have hz : (actLoop (keptOf sims5) (1 / 20) (ppfN (1 - 1 / 20)) 10).2.2.1 =
      16448536269514722 / 10000000000000000 +
        (10 - 16448536269514722 / 10000000000000000) / 2 ^ (24 + 1) := by
    unfold actLoop
    rw [keptOf_sims5, ppfN_at_095, show (25 : ℕ) = 24 + 1 from rfl, hlow]
  refine ⟨_, _, (actLoop (keptOf sims5) (1 / 20) (ppfN (1 - 1 / 20)) 10).2.2.1,
    ACT_post_calib 2 2 obsM expM resM (1 / 20) "ADJ" 300 ppfN ppf0 sims5 hcal,
    calibReport_FamCrit 2 2 obsM expM resM (1 / 20) "ADJ" 300 ppfN ppf0 sims5,
    ?_, ?_⟩
  · rw [calibReport_CellCrit, ppfN_at_0975]
  · rw [hz]
    norm_num

/-- C6 (amended): Famwise_ExactTestSize equals the any-exceedance rate at the
accepted midpoint z_omnibus of the 25-iteration bisection; and PROVIDED the
any-exceedance rate at the upper bracket 10 is at most alpha (an assumption the
frozen claim omits and which c6_counterexample shows necessary) and
0 ≤ ppf(1-alpha) ≤ 10, the rate evaluated 10/2^25 above z_omnibus is at most
alpha, i.e. the rate is at most alpha within the bisection resolution. -/
theorem c6_exact_size_within_resolution (R C : ℕ)
    (observed expected residuals : Mat R C) (α : ℚ) (Rtype : String) (nrep : ℕ)
    (ppf cdf : ℚ → ℚ) (sims : List (OMat R C)) (hcal : 1000 < totalOf R C sims)
    (h0 : 0 ≤ ppf (1 - α)) (h10 : ppf (1 - α) ≤ 10)
    (hr10 : rate (keptOf sims) 10 ≤ α) :
    ∃ rep w z, ACT_post R C observed expected residuals α Rtype nrep ppf cdf sims =
        Except.ok (rep, w) ∧
      rep.Famwise_CriticalValue = CF.val z ∧
      rep.Famwise_ExactTestSize = CF.val (rate (keptOf sims) z) ∧
      rate (keptOf sims) (z + 10 / 2 ^ 25) ≤ α := by
  obtain ⟨l, u, z, t, heq, h1, h2, h3, h4, h5, h6, h7⟩ :=
    actStep_iterate_inv (keptOf sims) α (ppf (1 - α)) 10 h10 24 0 0
  have hz : (actLoop (keptOf sims) α (ppf (1 - α)) 10).2.2.1 = z := by
    unfold actLoop
    rw [show (25 : ℕ) = 24 + 1 from rfl, heq]
  have ht : (actLoop (keptOf sims) α (ppf (1 - α)) 10).2.2.2 = t := by
    unfold actLoop
    rw [show (25 : ℕ) = 24 + 1 from rfl, heq]
  refine ⟨_, _, (actLoop (keptOf sims) α (ppf (1 - α)) 10).2.2.1,
    ACT_post_calib R C observed expected residuals α Rtype nrep ppf cdf sims hcal,
    calibReport_FamCrit R C observed expected residuals α Rtype nrep ppf cdf sims,
    ?_, ?_⟩
  · rw [calibReport_FamSize, ht, hz, h5]
  · rw [hz]
    have hzl : l ≤ z := by
      rcases h4 with rfl | rfl
      · exact le_refl _
      · exact h3
    have h25 : u - l = (10 - ppf (1 - α)) / 2 ^ 25 := by
      rw [show (25 : ℕ) = 24 + 1 from rfl]
      exact h6
    have hle2 : (10 - ppf (1 - α)) / 2 ^ 25 ≤ 10 / 2 ^ 25 :=
      div_le_div_of_nonneg_right (by linarith) (by positivity)
    have hub : u ≤ z + 10 / 2 ^ 25 := by linarith
    exact le_trans (rate_antitone (keptOf sims) hub) (h7 hr10)

/-- Witness for C6 (amended): 300 valid all-zero replicates, alpha = 1/20, with
the double precision quantile value: the rate at the bracket top is 0 ≤ alpha
and the conclusion holds. -/
theorem c6_exact_size_within_resolution_witness :
    (1000 < totalOf 2 2 sims5) ∧ (0 ≤ ppfN (1 - 1 / 20)) ∧
    (ppfN (1 - 1 / 20) ≤ 10) ∧ (rate (keptOf sims5) 10 ≤ 1 / 20) ∧
    ∃ rep w z, ACT_post 2 2 obsM expM resM (1 / 20) "ADJ" 300 ppfN ppf0 sims5 =
        Except.ok (rep, w) ∧
      rep.Famwise_CriticalValue = CF.val z ∧
      rep.Famwise_ExactTestSize = CF.val (rate (keptOf sims5) z) ∧
      rate (keptOf sims5) (z + 10 / 2 ^ 25) ≤ 1 / 20 := by
  have h1 : 1000 < totalOf 2 2 sims5 := by rw [totalOf_sims5]; norm_num
  have h2 : (0 : ℚ) ≤ ppfN (1 - 1 / 20) := by rw [ppfN_at_095]; norm_num
  have h3 : ppfN (1 - 1 / 20) ≤ 10 := by rw [ppfN_at_095]; norm_num
  have h4 : rate (keptOf sims5) 10 ≤ 1 / 20 := by
    rw [keptOf_sims5, rate_sims5 (by norm_num)]
    norm_num
  exact ⟨h1, h2, h3, h4, c6_exact_size_within_resolution 2 2 obsM expM resM
    (1 / 20) "ADJ" 300 ppfN ppf0 sims5 h1 h2 h3 h4⟩

/-- C6 counterexample: replicates whose residuals all have absolute value 20
keep the any-exceedance rate at 1 over the whole bracket, so the reported
Famwise_ExactTestSize is 1, and the rate stays 1 even 10/2^25 above the
accepted z_omnibus, while 1 exceeds alpha = 1/20 by far more than the bisection
resolution: the frozen claim that the rate is at most alpha within 10/2^25
fails. -/
theorem c6_counterexample :
    ∃ rep w z, ACT_post 2 2 obsM expM resM (1 / 20) "ADJ" 251 ppfN ppf0 sims6 =
        Except.ok (rep, w) ∧
      rep.Famwise_CriticalValue = CF.val z ∧
      rep.Famwise_ExactTestSize = CF.val 1 ∧
      rate (keptOf sims6) (z + 10 / 2 ^ 25) = 1 ∧
      ¬ ((1 : ℚ) ≤ 1 / 20 + 10 / 2 ^ 25) := by
  have hcal : 1000 < totalOf 2 2 sims6 := by rw [totalOf_sims6]; norm_num
  have hrate : ∀ z : ℚ, z ≤ 10 → (1 / 20 : ℚ) < rate sims6 z := by
    intro z hz
    rw [rate_sims6 (by linarith)]
    norm_num
  have hhigh := actStep_iterate_high sims6 (1 / 20)
    (16448536269514722 / 10000000000000000) 10 (by norm_num) hrate 24 0 0
  have hz : (actLoop (keptOf sims6) (1 / 20) (ppfN (1 - 1 / 20)) 10).2.2.1 =
      10 - (10 - 16448536269514722 / 10000000000000000) / 2 ^ (24 + 1) := by
    unfold actLoop
    rw [keptOf_sims6, ppfN_at_095, show (25 : ℕ) = 24 + 1 from rfl, hhigh]
  have ht : (actLoop (keptOf sims6) (1 / 20) (ppfN (1 - 1 / 20)) 10).2.2.2 = 1 := by
    unfold actLoop
    rw [keptOf_sims6, ppfN_at_095, show (25 : ℕ) = 24 + 1 from rfl, hhigh]
    show rate sims6 (10 - (10 - 16448536269514722 / 10000000000000000) / 2 ^ (24 + 1)) = 1
    rw [rate_sims6 (by norm_num)]
  refine ⟨_, _, (actLoop (keptOf sims6) (1 / 20) (ppfN (1 - 1 / 20)) 10).2.2.1,
    ACT_post_calib 2 2 obsM expM resM (1 / 20) "ADJ" 251 ppfN ppf0 sims6 hcal,
    calibReport_FamCrit 2 2 obsM expM resM (1 / 20) "ADJ" 251 ppfN ppf0 sims6,
    ?_, ?_, by norm_num⟩
  · rw [calibReport_FamSize, ht]
  · rw [hz, keptOf_sims6, rate_sims6 (by norm_num)]

/-- C7: in the calibrated branch, OmnibusHypothesis is the string Rejected
exactly when the boolean matrix Famwise_Significant (absolute observed residual
exceeding z_omnibus) has at least one true entry, and is otherwise the string
Not rejected. -/
theorem c7_omnibus_iff_any (R C : ℕ) (observed expected residuals : Mat R C)
    (α : ℚ) (Rtype : String) (nrep : ℕ) (ppf cdf : ℚ → ℚ) (sims : List (OMat R C))
    (hcal : 1000 < totalOf R C sims) :
    ∃ rep w bm s,
      ACT_post R C observed expected residuals α Rtype nrep ppf cdf sims =
        Except.ok (rep, w) ∧
      rep.Famwise_Significant = CF.val bm ∧
      rep.OmnibusHypothesis = CF.val s ∧
      ((s = "Rejected") ↔ ∃ i j, bm i j = true) ∧
      (s = "Rejected" ∨ s = "Not rejected") := by
  refine ⟨_, _,
    (fun i j => decide ((actLoop (keptOf sims) α (ppf (1 - α)) 10).2.2.1 < |residuals i j|)),
    (if ((List.finRange R).any fun i => (List.finRange C).any fun j =>
        decide ((actLoop (keptOf sims) α (ppf (1 - α)) 10).2.2.1 < |residuals i j|)) then
      "Rejected" else "Not rejected"),
    ACT_post_calib R C observed expected residuals α Rtype nrep ppf cdf sims hcal,
    rfl, rfl, ?_, ?_⟩
  · by_cases hA : ((List.finRange R).any fun i => (List.finRange C).any fun j =>
        decide ((actLoop (keptOf sims) α (ppf (1 - α)) 10).2.2.1 < |residuals i j|)) = true
    · rw [if_pos hA]
      constructor
      · intro _
        rw [List.any_eq_true] at hA
        obtain ⟨i, _, hi⟩ := hA
        rw [List.any_eq_true] at hi
        obtain ⟨j, _, hj⟩ := hi
        exact ⟨i, j, hj⟩
      · intro _
        rfl
    · rw [if_neg hA]
      constructor
      · intro h
        exact absurd h (by decide)
      · rintro ⟨i, j, hj⟩
        exact absurd (List.any_eq_true.mpr ⟨i, List.mem_finRange i,
          List.any_eq_true.mpr ⟨j, List.mem_finRange j, hj⟩⟩) hA
  · by_cases hA : ((List.finRange R).any fun i => (List.finRange C).any fun j =>
        decide ((actLoop (keptOf sims) α (ppf (1 - α)) 10).2.2.1 < |residuals i j|)) = true
    · rw [if_pos hA]
      exact Or.inl rfl
    · rw [if_neg hA]
      exact Or.inr rfl

/-- Witness for C7: 251 valid replicates with large residuals reach
calibration; the equivalence holds there. -/
theorem c7_omnibus_iff_any_witness :
    (1000 < totalOf 2 2 sims6) ∧
    ∃ rep w bm s,
      ACT_post 2 2 obsM expM resM (1 / 20) "ADJ" 251 ppfN ppf0 sims6 =
        Except.ok (rep, w) ∧
      rep.Famwise_Significant = CF.val bm ∧
      rep.OmnibusHypothesis = CF.val s ∧
      ((s = "Rejected") ↔ ∃ i j, bm i j = true) ∧
      (s = "Rejected" ∨ s = "Not rejected") := by
  have h1 : 1000 < totalOf 2 2 sims6 := by rw [totalOf_sims6]; norm_num
  exact ⟨h1, c7_omnibus_iff_any 2 2 obsM expM resM (1 / 20) "ADJ" 251 ppfN ppf0
    sims6 h1⟩

/-- C8: in both report branches, Cellwise_CriticalValue is the standard normal
quantile evaluated at 1 - alpha/2, i.e. the two-sided quantile for alpha (about
1.959964 at alpha = 1/20), and Cellwise_Significant marks exactly the cells
whose absolute observed residual exceeds it. -/
theorem c8_cellwise_quantile (R C : ℕ) (observed expected residuals : Mat R C)
    (α : ℚ) (Rtype : String) (nrep : ℕ) (ppf cdf : ℚ → ℚ) (sims : List (OMat R C))
    (hne : ¬ (toKeepOf sims).length = 0) :
    ∃ rep w, ACT_post R C observed expected residuals α Rtype nrep ppf cdf sims =
        Except.ok (rep, w) ∧
      rep.Cellwise_CriticalValue = ppf (1 - α / 2) ∧
      ∀ i j, rep.Cellwise_Significant i j = decide (ppf (1 - α / 2) < |residuals i j|) := by
  by_cases hcal : 1000 < totalOf R C sims
  · exact ⟨_, _, ACT_post_calib R C observed expected residuals α Rtype nrep
      ppf cdf sims hcal, rfl, fun i j => rfl⟩
  · exact ⟨_, _, ACT_post_sent R C observed expected residuals α Rtype nrep
      ppf cdf sims hne hcal, rfl, fun i j => rfl⟩

/-- Witness for C8: a single valid replicate with the concrete quantile
function; the cellwise critical value field is ppfN evaluated at 39/40. -/
theorem c8_cellwise_quantile_witness :
    (¬ (toKeepOf (R := 2) (C := 2) [zeroOMat 2 2]).length = 0) ∧
    ∃ rep w, ACT_post 2 2 obsM expM resM (1 / 20) "ADJ" 1 ppfN ppf0 [zeroOMat 2 2] =
        Except.ok (rep, w) ∧
      rep.Cellwise_CriticalValue = ppfN (1 - (1 / 20) / 2) ∧
      ∀ i j, rep.Cellwise_Significant i j = decide (ppfN (1 - (1 / 20) / 2) < |resM i j|) := by
  exact ⟨by decide, c8_cellwise_quantile 2 2 obsM expM resM (1 / 20) "ADJ" 1
    ppfN ppf0 [zeroOMat 2 2] (by decide)⟩

/-- C9: with the moment-corrected normalization selected, every cell residual
of the observed table and of every replicate equals
(observed - expected) / sqrt(expected * v) with v = (C-1)(R-1)/(C*R) the same
constant for all cells of the R by C table, matching the spec formula; the
replicate variance array holds the same constant. -/
theorem c9_mc_residual_formula (R C : ℕ) (sqrtFn : ℚ → ℚ)
    (observed expected stdResids sim simExpected simStd : Mat R C)
    (i : Fin R) (j : Fin C) :
    residualsFor R C "MC" sqrtFn observed expected stdResids i j =
      mcResidualSpec R C sqrtFn (observed i j) (expected i j) ∧
    simResidualsFor R C "MC" sqrtFn sim simExpected simStd i j =
      mcResidualSpec R C sqrtFn (sim i j) (simExpected i j) ∧
    (∀ (i2 : Fin R) (j2 : Fin C), obsVariancesMC R C i j = obsVariancesMC R C i2 j2) ∧
    obsVariancesMC R C i j = ((C : ℚ) - 1) * ((R : ℚ) - 1) / ((C : ℚ) * (R : ℚ)) ∧
    simVariancesMC R C i j = obsVariancesMC R C i j := by
  refine ⟨?_, ?_, fun i2 j2 => rfl, rfl, rfl⟩
  · unfold residualsFor
    rw [if_neg (by decide : ¬ ("MC" = "ADJ"))]
    rfl
  · unfold simResidualsFor
    rw [if_neg (by decide : ¬ ("MC" = "ADJ"))]
    rfl

/-- C10: the lowercase argument adj passes validation (the check lower-cases
Rtype), but both residual selections compare with the exact string ADJ, so adj
selects the moment-corrected formula for the observed table and for every
replicate instead of the adjusted residuals. -/
theorem c10_lowercase_adj_selects_mc :
    rtypeOk "adj" = true ∧
    validate obs4 (PyVal.pfloat (1 / 20)) "adj" (PyVal.pint 100) = Except.ok 100 ∧
    (∀ (R C : ℕ) (sqrtFn : ℚ → ℚ) (observed expected stdResids : Mat R C),
      residualsFor R C "adj" sqrtFn observed expected stdResids =
        obsResidualsMC R C sqrtFn observed expected) ∧
    (∀ (R C : ℕ) (sqrtFn : ℚ → ℚ) (sim simExpected simStd : Mat R C),
      simResidualsFor R C "adj" sqrtFn sim simExpected simStd =
        simResidualsMC R C sqrtFn sim simExpected) := by
  refine ⟨by decide, ?_, ?_, ?_⟩
  · rw [validate_obs4_ok _ _ _ (by decide) alphaBad_small]
    rfl
  · intro R C sqrtFn observed expected stdResids
    unfold residualsFor
    rw [if_neg (by decide : ¬ ("adj" = "ADJ"))]
  · intro R C sqrtFn sim simExpected simStd
    unfold simResidualsFor
    rw [if_neg (by decide : ¬ ("adj" = "ADJ"))]

end ACT
